import Mathlib

/-!
Shallow embedding of the verification-matching and webhook-dispatch core of
tilda-form-handler.js, a Yandex Cloud serverless function that stores form
submissions and relays phone-verification events to per-key webhook endpoints.

JavaScript values that matter to the claims are modelled as follows:
strings are Lean strings, JS null and undefined both collapse to none of an
Option, JS objects that are only read by key are association lists with
first-match lookup (so spread-overriding a key is modelled by prepending the
overriding bindings), and the truthiness tests the source performs on strings
treat the empty string as falsy.
-/

set_option autoImplicit false

namespace TildaHandler

/-- JSON-ish values stored in a raw submission payload.  The claims only need
strings and booleans, so the model restricts values to these two shapes. -/
inductive JVal where
  | str (s : String)
  | boolean (b : Bool)
deriving DecidableEq, Repr

/-- A JS object read by key, modelled as an association list with first-match
lookup. -/
abbrev Obj := List (String × JVal)

/-- Key lookup on an object, first binding wins. -/
def lookupObj (o : Obj) (k : String) : Option JVal :=
  (o.find? (fun p => p.1 == k)).map (fun p => p.2)

/-- JS truthiness of a possibly-absent string value: null, undefined and the
empty string are falsy. -/
def truthyO : Option String → Bool
  | none => false
  | some s => !(s == "")

/-- JS truthiness of a JVal: the empty string and false are falsy. -/
def jvalTruthy : JVal → Bool
  | .str s => !(s == "")
  | .boolean b => b

/-- JS truthiness of a possibly-absent JVal. -/
def jvalTruthyO : Option JVal → Bool
  | none => false
  | some v => jvalTruthy v

/-- Per-character expansion performed by escapeString in the source.  The
source applies five sequential global replaces (backslash, double quote,
single quote, newline, carriage return); because every replacement output
only contains characters handled by earlier passes, the sequential replaces
are equivalent to this single character-wise expansion. -/
def escCharL (c : Char) : List Char :=
  if c = Char.ofNat 92 then [Char.ofNat 92, Char.ofNat 92]
  else if c = Char.ofNat 34 then [Char.ofNat 92, Char.ofNat 34]
  else if c = Char.ofNat 39 then [Char.ofNat 92, Char.ofNat 39]
  else if c = Char.ofNat 10 then [Char.ofNat 92, Char.ofNat 110]
  else if c = Char.ofNat 13 then [Char.ofNat 92, Char.ofNat 114]
  else [c]

/-- Concatenated expansion of a character list. -/
def escList : List Char → List Char
  | [] => []
  | c :: cs => escCharL c ++ escList cs

/-- Model of escapeString from the source: escapes backslashes, quotes and
line breaks before the string is spliced into a query text. -/
def escapeString (s : String) : String := ⟨escList s.data⟩

/-- Model of isValidPhone: the regular expression test for a leading plus
sign followed by 10 to 15 decimal digits. -/
def isValidPhone (s : String) : Bool :=
  match s.data with
  | [] => false
  | c :: rest =>
      c == Char.ofNat 43 && rest.all Char.isDigit &&
      decide (10 ≤ rest.length) && decide (rest.length ≤ 15)

/-- Model of normalizePhone: strips every character that is not a digit or a
plus sign, then applies the Russian-number heuristics of the source.  A JS
falsy input (null, undefined, empty string) yields null. -/
def normalizePhone (phone : Option String) : Option String :=
  match phone with
  | none => none
  | some p =>
      if p = "" then none
      else
        let clean : String := ⟨p.data.filter (fun c => c.isDigit || c == Char.ofNat 43)⟩
        if clean.startsWith "+" then some clean
        else if clean.startsWith "8" && clean.length == 11 then some ("+7" ++ clean.drop 1)
        else if clean.startsWith "7" && clean.length == 11 then some ("+" ++ clean)
        else if clean.length == 10 then some ("+7" ++ clean)
        else some ("+" ++ clean)

/-- Test for a 32-character lowercase hexadecimal string, the regular
expression guarding extracted verification keys. -/
def isHex32 (s : String) : Bool :=
  decide (s.length = 32) &&
  s.data.all (fun c => c.isDigit || (Char.ofNat 97 ≤ c && c ≤ Char.ofNat 102))

/-- Checks whether the character list pat occurs at the head of the second
list. -/
def leadsWith : List Char → List Char → Bool
  | [], _ => true
  | _ :: _, [] => false
  | a :: as, b :: bs => a == b && leadsWith as bs

/-- Checks whether pat occurs as a contiguous run anywhere in the list. -/
def occursIn (pat : List Char) : List Char → Bool
  | [] => pat.isEmpty
  | b :: bs => leadsWith pat (b :: bs) || occursIn pat bs

/-- Model of the JS String.includes test used by the handler catch block. -/
def containsSub (s pat : String) : Bool := occursIn pat.data s.data

/-- A row of the raw_submissions table. -/
structure Submission where
  id : String
  timestamp : Nat
  phone : String
  sourceDomain : String
  rawData : Obj
  verificationKey : Option String
  phoneVerified : Bool
  webhookSent : Bool
deriving DecidableEq, Repr

/-- A row of the incoming_verification_attempts table.  The optional status
field mirrors the data model of the specification; the insert performed by
the source has no status column, so the field is always none on records this
model writes. -/
structure AuditRecord where
  id : String
  timestamp : Nat
  phone : String
  source : String
  verified : Bool
  foundInSubmissions : Bool
  status : Option String
deriving DecidableEq, Repr

/-- A row of the webhook_endpoints table. -/
structure Endpoint where
  key : String
  endpointUrl : String
  enabled : Bool
deriving DecidableEq, Repr

/-- The backing store reachable through the YDB driver. -/
structure DB where
  rawSubmissions : List Submission
  attempts : List AuditRecord
  endpoints : List Endpoint
deriving DecidableEq, Repr

/-- Appends one verification-attempt audit row. -/
def addAudit (db : DB) (r : AuditRecord) : DB :=
  { db with attempts := db.attempts ++ [r] }

/-- The single most recent submission by timestamp, the ORDER BY timestamp
DESC LIMIT 1 of the source query.  On a timestamp tie the earlier row wins. -/
def latestByTimestamp : List Submission → Option Submission
  | [] => none
  | s :: rest =>
      match latestByTimestamp rest with
      | none => some s
      | some m => if m.timestamp > s.timestamp then some m else some s

/-- Model of findOriginalRawSubmission: a JS-falsy phone short-circuits to
null, otherwise the most recent raw_submissions row whose phone column equals
the escaped phone is selected. -/
def findOriginalRawSubmission (db : DB) (phone : String) : Option Submission :=
  if phone = "" then none
  else latestByTimestamp (db.rawSubmissions.filter (fun s => s.phone == escapeString phone))

/-- Model of getWebhookEndpoint: a JS-falsy key short-circuits to null; an
absent row or a row with enabled set to false also yields null; otherwise the
endpoint URL is returned. -/
def getWebhookEndpoint (db : DB) (key : Option String) : Option String :=
  match key with
  | none => none
  | some k =>
      if k = "" then none
      else
        match db.endpoints.find? (fun e => e.key == escapeString k) with
        | none => none
        | some e => if e.enabled then some e.endpointUrl else none

/-- Model of logVerificationAttempt: builds the row inserted into
incoming_verification_attempts.  The statusArg parameter mirrors the status
argument of the source function, which the INSERT statement drops: the stored
row carries no status value. -/
def logVerificationAttempt (now : Nat) (phone source : String)
    (verified foundInSubmissions : Bool) (_statusArg : Option String) : AuditRecord :=
  { id := toString now
    timestamp := now
    phone := escapeString phone
    source := escapeString source
    verified := verified
    foundInSubmissions := foundInSubmissions
    status := none }

/-- Evaluation of the 5-minute window test of the source, which divides the
millisecond difference by 60000 and compares with 5.  Over the reals d/60000
is greater than 5 exactly when d is greater than 300000, and because 5 is
exactly representable and division is monotone, the double-precision
comparison agrees with the integer comparison. -/
def timedOutWindow (now ts : Nat) : Bool :=
  decide ((now : Int) - (ts : Int) > 300000)

/-- Outcome of the single outbound HTTPS request, as observed by the
callbacks in sendToWebhookWithCookies. -/
inductive HttpOutcome where
  | response (statusCode : Nat) (body : String)
  | netError (msg : String)
  | timedOut
deriving DecidableEq, Repr

/-- The rejection value built by sendToWebhookWithCookies: a message plus the
remote status and body when a response was received. -/
structure DeliveryErr where
  message : String
  remote : Option (Nat × String)
deriving DecidableEq, Repr

/-- Classification performed by the response callbacks of the source: a
status in [200,300) resolves with the body, any other status rejects with an
error carrying status and body, a transport error rejects with its message,
and a timeout destroys the request with a Request timeout error. -/
def classifyDelivery : HttpOutcome → Except DeliveryErr String
  | .response s b =>
      if 200 ≤ s ∧ s < 300 then .ok b
      else .error { message := "Webhook responded with status " ++ toString s, remote := some (s, b) }
  | .netError m => .error { message := m, remote := none }
  | .timedOut => .error { message := "Request timeout", remote := none }

/-- The outbound request assembled by sendToWebhookWithCookies. -/
structure DeliveryReq where
  url : String
  body : Obj
  cookieHeader : Option JVal
  timeoutMs : Nat
deriving DecidableEq, Repr

/-- Request construction of sendToWebhookWithCookies: a Cookie header is
attached only when the cookies argument is JS-truthy. -/
def mkDeliveryReq (url : String) (data : Obj) (cookies : Option JVal) : DeliveryReq :=
  { url := url
    body := data
    cookieHeader := if jvalTruthyO cookies then cookies else none
    timeoutMs := 10000 }

/-- Model of sendToWebhookWithCookies: a JS-falsy URL throws before any
request is issued, otherwise exactly one request is issued and the outcome is
classified.  The first component is the request actually sent, when one is. -/
def sendToWebhookWithCookies (url : String) (data : Obj) (cookies : Option JVal)
    (outcome : HttpOutcome) : Option DeliveryReq × Except DeliveryErr String :=
  if url = "" then (none, .error { message := "Webhook URL is required", remote := none })
  else (some (mkDeliveryReq url data cookies), classifyDelivery outcome)

/-- The verification metadata merged over the original payload: object spread
overriding is modelled by prepending the overriding bindings to the
first-match association list. -/
def mkWebhookData (raw : Obj) (phone source iso : String) : Obj :=
  [("verification_phone", JVal.str phone),
   ("verification_source", JVal.str source),
   ("verification_timestamp", JVal.str iso),
   ("verified", JVal.boolean true)] ++ raw

/-- The UPDATE raw_submissions statements of the source, as the set of
columns assigned.  A none column is not mentioned by the statement. -/
structure FlagUpdate where
  phone : String
  phoneVerified : Option Bool
  webhookSent : Bool
  verificationKey : Option String
deriving DecidableEq, Repr

/-- Applies a flag update to every raw_submissions row whose phone column
matches the WHERE clause. -/
def applyUpdate (db : DB) (u : FlagUpdate) : DB :=
  { db with
    rawSubmissions := db.rawSubmissions.map (fun s =>
      if s.phone == u.phone then
        { s with
          phoneVerified := u.phoneVerified.getD s.phoneVerified
          webhookSent := u.webhookSent
          verificationKey :=
            match u.verificationKey with
            | some k => some k
            | none => s.verificationKey }
      else s) }

/-- The JSON response body of the handler, restricted to the fields the
claims mention. -/
structure Resp where
  statusCode : Nat
  status : String
  message : String
  verified : Option Bool
  webhookSent : Option Bool
deriving DecidableEq, Repr

/-- Response of the expired-window branch. -/
def timeoutResp : Resp :=
  { statusCode := 200, status := "timeout", message := "Verification window expired"
    verified := some false, webhookSent := none }

/-- Response of the no-matching-submission branch. -/
def notFoundResp : Resp :=
  { statusCode := 200, status := "success", message := "Phone not found in forms"
    verified := some false, webhookSent := none }

/-- Response of the successful-delivery branch. -/
def successResp : Resp :=
  { statusCode := 200, status := "success", message := "Phone verified successfully"
    verified := some true, webhookSent := some true }

/-- Response of the failed-delivery branch. -/
def webhookFailResp : Resp :=
  { statusCode := 200, status := "error", message := "Verification completed but webhook failed"
    verified := some true, webhookSent := some false }

/-- Response of handleTildaSubmission. -/
def tildaResp : Resp :=
  { statusCode := 200, status := "success", message := "Form data saved successfully"
    verified := none, webhookSent := none }

/-- Store reads, store writes and outbound deliveries, in execution order. -/
inductive Op where
  | findSubmission (phone : String)
  | auditInsert (r : AuditRecord)
  | findEndpoint (key : String)
  | deliver (req : DeliveryReq)
  | updateFlags (u : FlagUpdate)
  | insertSubmission (s : Submission)
deriving DecidableEq, Repr

/-- Discriminates delivery operations. -/
def isDeliverOp : Op → Bool
  | .deliver _ => true
  | _ => false

/-- Discriminates flag-update operations. -/
def isUpdateOp : Op → Bool
  | .updateFlags _ => true
  | _ => false

/-- Discriminates audit-insert operations. -/
def isAuditOp : Op → Bool
  | .auditInsert _ => true
  | _ => false

/-- Result of one verification-path invocation: the response (or the thrown
error message), the resulting store, and the trace of store and delivery
operations. -/
structure VerifOut where
  resp : Except String Resp
  db : DB
  ops : List Op
deriving Repr

/-- The flag update executed by the successful-delivery branch. -/
def successUpdate (phone : String) (finalKey : Option String) : FlagUpdate :=
  { phone := escapeString phone, phoneVerified := some true
    webhookSent := true, verificationKey := finalKey.map escapeString }

/-- The flag update executed by the failed-delivery catch block: only the
webhook_sent column is assigned. -/
def failureUpdate (phone : String) : FlagUpdate :=
  { phone := escapeString phone, phoneVerified := none
    webhookSent := false, verificationKey := none }

/-- The try/catch block of handleVerification around the outbound delivery:
one delivery attempt followed by exactly one flag update, whose shape depends
on the delivery outcome. -/
def deliverAndFlag (db1 : DB) (opsA : List Op) (phone : String) (data : Obj)
    (cookies : Option JVal) (finalKey : Option String) (url : String)
    (outcome : HttpOutcome) : VerifOut :=
  let sent := sendToWebhookWithCookies url data cookies outcome
  let dOps : List Op :=
    match sent.1 with
    | some req => [Op.deliver req]
    | none => []
  match sent.2 with
  | .ok _ =>
      { resp := .ok successResp, db := applyUpdate db1 (successUpdate phone finalKey)
        ops := opsA ++ dOps ++ [Op.updateFlags (successUpdate phone finalKey)] }
  | .error _ =>
      { resp := .ok webhookFailResp, db := applyUpdate db1 (failureUpdate phone)
        ops := opsA ++ dOps ++ [Op.updateFlags (failureUpdate phone)] }

/-- Model of handleVerification, the Telegram and WhatsApp verification path.
Parameters now (milliseconds) and nowIso stand for the two clock reads of the
source, and outcome stands for the behaviour of the remote webhook host. -/
def handleVerification (db : DB) (now : Nat) (nowIso : String)
    (phone source : String) (vkey : Option String) (outcome : HttpOutcome) : VerifOut :=
  let ops0 : List Op := [Op.findSubmission phone]
  match findOriginalRawSubmission db phone with
  | none =>
      let a0 := logVerificationAttempt now phone source false false none
      { resp := .ok notFoundResp, db := addAudit db a0
        ops := ops0 ++ [Op.auditInsert a0] }
  | some orig =>
      if timedOutWindow now orig.timestamp then
        let a1 := logVerificationAttempt now phone source false true (some "timeout")
        { resp := .ok timeoutResp, db := addAudit db a1
          ops := ops0 ++ [Op.auditInsert a1] }
      else
        let a2 := logVerificationAttempt now phone source false true none
        let db1 := addAudit db a2
        let finalKey := if truthyO vkey then vkey else orig.verificationKey
        let epOps : List Op :=
          if truthyO finalKey then [Op.findEndpoint (finalKey.getD "")] else []
        let opsA := ops0 ++ [Op.auditInsert a2] ++ epOps
        match getWebhookEndpoint db1 finalKey with
        | none => { resp := .error "Webhook endpoint not found", db := db1, ops := opsA }
        | some url =>
            deliverAndFlag db1 opsA phone (mkWebhookData orig.rawData phone source nowIso)
              (lookupObj orig.rawData "COOKIES") finalKey url outcome

/-- Model of handleTildaSubmission: inserts the whole parsed payload as a new
raw_submissions row with both flags false.  A JS-falsy verification key is
stored as NULL. -/
def handleTildaSubmission (db : DB) (now : Nat) (phone domain : String)
    (parsedData : Obj) (vkey : Option String) : VerifOut :=
  let sub : Submission :=
    { id := toString now
      timestamp := now
      phone := escapeString phone
      sourceDomain := escapeString domain
      rawData := parsedData
      verificationKey := if truthyO vkey then vkey.map escapeString else none
      phoneVerified := false
      webhookSent := false }
  { resp := .ok tildaResp
    db := { db with rawSubmissions := db.rawSubmissions ++ [sub] }
    ops := [Op.insertSubmission sub] }

/-- Model of the routing core of the exported handler after request parsing:
the phone is normalized and validated before any store operation, then the
source tag selects the verification or the intake path. -/
def handlerCore (db : DB) (now : Nat) (nowIso : String) (rawPhone : Option String)
    (source domain : String) (parsedData : Obj) (vkey : Option String)
    (outcome : HttpOutcome) : VerifOut :=
  match normalizePhone rawPhone with
  | none => { resp := .error "Invalid phone format", db := db, ops := [] }
  | some np =>
      if isValidPhone np then
        if source == "telegram" || source == "whatsapp" then
          handleVerification db now nowIso np source vkey outcome
        else if source == "tilda" then
          handleTildaSubmission db now np domain parsedData vkey
        else { resp := .error ("Unsupported source: " ++ source), db := db, ops := [] }
      else { resp := .error "Invalid phone format", db := db, ops := [] }

/-- Model of the catch block of the exported handler: connectivity failures
are mapped to a 503 by message-substring matching, every other thrown error
to a 200 processing-error body. -/
def handlerCatch (r : Except String Resp) : Resp :=
  match r with
  | .ok resp => resp
  | .error msg =>
      if containsSub msg "Database connection failed" || containsSub msg "UNAVAILABLE" ||
         containsSub msg "Name resolution failed" || containsSub msg "Database service unavailable" then
        { statusCode := 503, status := "error", message := "Service temporarily unavailable"
          verified := none, webhookSent := none }
      else
        { statusCode := 200, status := "error", message := msg
          verified := none, webhookSent := none }

/-- Result of the bounded connection-attempt loop: the final outcome, the
backoff delays slept between attempts, and the attempt numbers tried. -/
structure ConnectResult where
  result : Except String Nat
  delays : List Nat
  attemptsTried : List Nat
deriving Repr

/-- The for-loop of initYDBDriverWithRetry: env gives the outcome of each
numbered connection attempt (a driver id or an error), maxRetries is 5 and
initialDelay is 1000.  The first argument counts the remaining iterations and
the second is the attempt number, starting at 1. -/
def connectLoop (env : Nat → Except String Nat) : Nat → Nat → ConnectResult
  | 0, _ =>
      { result := .error "Failed to initialize YDB driver after retries"
        delays := [], attemptsTried := [] }
  | r + 1, attempt =>
      match env attempt with
      | .ok d => { result := .ok d, delays := [], attemptsTried := [attempt] }
      | .error e =>
          if attempt = 5 then
            { result := .error e, delays := [], attemptsTried := [attempt] }
          else
            let rest := connectLoop env r (attempt + 1)
            { result := rest.result
              delays := 1000 * 2 ^ (attempt - 1) :: rest.delays
              attemptsTried := attempt :: rest.attemptsTried }

/-- The whole connection-attempt sequence of one initialization. -/
def connectAttempts (env : Nat → Except String Nat) : ConnectResult :=
  connectLoop env 5 1

/-- Process-wide connection-manager state: the cached driver and the
initialization-in-progress flag. -/
structure CMState where
  driverInstance : Option Nat
  driverInitializing : Bool
deriving DecidableEq, Repr

/-- Environment of the connection manager: the readiness probe (none models
a thrown probe, which clears the cached driver) and the per-attempt
connection outcomes. -/
structure CMEnv where
  probe : Nat → Option Bool
  connect : Nat → Except String Nat

/-- Model of initYDBDriverWithRetry.  The fuel argument bounds the
wait-and-recheck recursion taken while driverInitializing is set; a none
result means the recursion never returned within the given fuel, for any
fuel, i.e. the call diverges.  On the success path of the source the
driverInitializing flag is assigned true and never reset; the model mirrors
this. -/
def initYDBDriverWithRetry (env : CMEnv) : Nat → CMState → Option (CMState × Except String Nat)
  | 0, _ => none
  | fuel + 1, st =>
      let probed : CMState × Bool :=
        match st.driverInstance with
        | none => (st, false)
        | some d =>
            match env.probe d with
            | some b => (st, b)
            | none => ({ st with driverInstance := none }, false)
      if probed.2 then
        some (probed.1, .ok (probed.1.driverInstance.getD 0))
      else
        let st1 := probed.1
        if st1.driverInitializing then
          initYDBDriverWithRetry env fuel st1
        else
          let st2 := { st1 with driverInitializing := true }
          let c := connectAttempts env.connect
          match c.result with
          | .ok d => some ({ st2 with driverInstance := some d }, .ok d)
          | .error e => some ({ st2 with driverInitializing := false }, .error e)

/-- Inbound event fields read by extractVerificationKey.  The two header
spellings of the source collapse to one optional field. -/
structure HEvent where
  qsKey : Option String
  mvKey : Option (List String)
  rawQuery : Option String
  webhookUrlHeader : Option String

/-- The final format guard of extractVerificationKey: a truthy key that does
not match the 32-hex regular expression is replaced by null. -/
def finalKeyGuard (key : Option String) : Option String :=
  if truthyO key && !(isHex32 (key.getD "")) then none else key

/-- Model of extractVerificationKey.  The oracles rq and urlp stand for the
URLSearchParams lookup over rawQuery and the webhook-URL parse: an outer none
models a thrown parse (the key variable keeps its previous value), an inner
result models the value returned by get, which may itself be null. -/
def extractVerificationKey (rq urlp : String → Option (Option String)) (e : HEvent) :
    Option String :=
  let key1 : Option String :=
    if truthyO e.qsKey then e.qsKey
    else
      match e.mvKey with
      | some l => l.head?
      | none =>
          match e.rawQuery with
          | some q =>
              if q = "" then none
              else
                match rq q with
                | some r => r
                | none => none
          | none => none
  let key2 : Option String :=
    if truthyO key1 then key1
    else
      match e.webhookUrlHeader with
      | some w =>
          if w = "" then key1
          else
            match urlp w with
            | some r => r
            | none => key1
      | none => key1
  finalKeyGuard key2

/-- The phone strings carried by a store or delivery operation: the phone
column of a row or WHERE clause, and the verification_phone field of a
delivered payload. -/
def opPhones : Op → List String
  | .findSubmission p => [p]
  | .auditInsert r => [r.phone]
  | .findEndpoint _ => []
  | .deliver req =>
      match lookupObj req.body "verification_phone" with
      | some (JVal.str s) => [s]
      | _ => []
  | .updateFlags u => [u.phone]
  | .insertSubmission s => [s.phone]

/-- A valid webhook key used by the concrete scenarios below. -/
def keyW : String := "aaaaaaaaaaaaaaaaaaaaaaaaaaaaaaaa"

/-- The phone of the concrete scenarios below. -/
def phoneW : String := "+79991234567"

/-- A raw submission stored at time 0 with a name field and a cookie. -/
def subW : Submission :=
  { id := "1", timestamp := 0, phone := phoneW, sourceDomain := "tilda"
    rawData := [("Name", JVal.str "A"), ("COOKIES", JVal.str "sid=1")]
    verificationKey := some keyW, phoneVerified := false, webhookSent := false }

/-- A store holding subW and an enabled endpoint for its key. -/
def dbW : DB :=
  { rawSubmissions := [subW], attempts := []
    endpoints := [{ key := keyW, endpointUrl := "https://example.com/hook", enabled := true }] }

/-- A store holding subW and a disabled endpoint for its key. -/
def dbDisabledW : DB :=
  { rawSubmissions := [subW], attempts := []
    endpoints := [{ key := keyW, endpointUrl := "https://example.com/hook", enabled := false }] }

/-- An empty store. -/
def dbEmptyW : DB := { rawSubmissions := [], attempts := [], endpoints := [] }

end TildaHandler

namespace TildaHandler

theorem getWebhookEndpoint_addAudit (db : DB) (r : AuditRecord) (k : Option String) :
    getWebhookEndpoint (addAudit db r) k = getWebhookEndpoint db k := rfl

theorem escCharL_eq_self (c : Char) (h : c.isDigit = true ∨ c = Char.ofNat 43) :
    escCharL c = [c] := by
  rcases h with h | h
  · have h92 : ¬ c = Char.ofNat 92 := fun hc => by rw [hc] at h; exact absurd h (by decide)
    have h34 : ¬ c = Char.ofNat 34 := fun hc => by rw [hc] at h; exact absurd h (by decide)
    have h39 : ¬ c = Char.ofNat 39 := fun hc => by rw [hc] at h; exact absurd h (by decide)
    have h10 : ¬ c = Char.ofNat 10 := fun hc => by rw [hc] at h; exact absurd h (by decide)
    have h13 : ¬ c = Char.ofNat 13 := fun hc => by rw [hc] at h; exact absurd h (by decide)
    simp [escCharL, h92, h34, h39, h10, h13]
  · rw [h]; decide

theorem escList_eq_self (l : List Char) (h : ∀ c ∈ l, c.isDigit = true ∨ c = Char.ofNat 43) :
    escList l = l := by
  induction l with
  | nil => rfl
  | cons c cs ih =>
      rw [escList, escCharL_eq_self c (h c (by simp)), ih (fun x hx => h x (by simp [hx]))]
      rfl

theorem escapeString_validPhone (s : String) (h : isValidPhone s = true) : escapeString s = s := by
  obtain ⟨l⟩ := s
  match l, h with
  | c :: rest, h =>
      unfold isValidPhone at h
      simp only [Bool.and_eq_true, beq_iff_eq, List.all_eq_true, decide_eq_true_eq] at h
      unfold escapeString
      rw [escList_eq_self]
      intro x hx
      rcases List.mem_cons.mp hx with hx | hx
      · right; rw [hx]; exact h.1.1.1
      · left; exact h.1.1.2 x hx

theorem lookupObj_mkWebhookData_phone (raw : Obj) (p src iso : String) :
    lookupObj (mkWebhookData raw p src iso) "verification_phone" = some (JVal.str p) := rfl

theorem deliverAndFlag_deliver_count (db1 : DB) (opsA : List Op) (phone : String) (data : Obj)
    (cookies : Option JVal) (finalKey : Option String) (url : String) (outcome : HttpOutcome) :
    ((deliverAndFlag db1 opsA phone data cookies finalKey url outcome).ops.filter isDeliverOp).length ≤
      (opsA.filter isDeliverOp).length + 1 := by
  unfold deliverAndFlag sendToWebhookWithCookies
  by_cases hu : url = ""
  · simp [hu, List.filter_append, isDeliverOp]
  · simp only [if_neg hu]
    cases houtcome : classifyDelivery outcome <;>
      simp [List.filter_append, isDeliverOp]

theorem deliverAndFlag_opPhones (db1 : DB) (opsA : List Op) (phone : String) (data : Obj)
    (cookies : Option JVal) (finalKey : Option String) (url : String) (outcome : HttpOutcome)
    (hdata : lookupObj data "verification_phone" = some (JVal.str phone)) :
    ∀ op ∈ (deliverAndFlag db1 opsA phone data cookies finalKey url outcome).ops,
      op ∈ opsA ∨ ∀ q ∈ opPhones op, q = phone ∨ q = escapeString phone := by
  intro op hop
  unfold deliverAndFlag sendToWebhookWithCookies at hop
  by_cases hu : url = ""
  · rw [if_pos hu] at hop
    simp at hop
    rcases hop with hop | rfl
    · exact Or.inl hop
    · refine Or.inr ?_
      intro q hq
      simp [opPhones, failureUpdate] at hq
      simp [hq]
  · rw [if_neg hu] at hop
    cases hcl : classifyDelivery outcome <;> rw [hcl] at hop <;> simp at hop <;>
      rcases hop with hop | rfl | rfl
    · exact Or.inl hop
    · refine Or.inr ?_
      intro q hq
      simp [opPhones, mkDeliveryReq, hdata] at hq
      simp [hq]
    · refine Or.inr ?_
      intro q hq
      simp [opPhones, failureUpdate] at hq
      simp [hq]
    · exact Or.inl hop
    · refine Or.inr ?_
      intro q hq
      simp [opPhones, mkDeliveryReq, hdata] at hq
      simp [hq]
    · refine Or.inr ?_
      intro q hq
      simp [opPhones, successUpdate] at hq
      simp [hq]

theorem deliverAndFlag_failure (db1 : DB) (opsA : List Op) (phone : String) (data : Obj)
    (cookies : Option JVal) (finalKey : Option String) (url : String) (outcome : HttpOutcome)
    (err : DeliveryErr) (hu : ¬ url = "") (hcl : classifyDelivery outcome = .error err) :
    deliverAndFlag db1 opsA phone data cookies finalKey url outcome =
      { resp := .ok webhookFailResp
        db := applyUpdate db1 (failureUpdate phone)
        ops := opsA ++ [Op.deliver (mkDeliveryReq url data cookies),
                        Op.updateFlags (failureUpdate phone)] } := by
  unfold deliverAndFlag sendToWebhookWithCookies
  simp [if_neg hu, hcl]

theorem deliverAndFlag_success (db1 : DB) (opsA : List Op) (phone : String) (data : Obj)
    (cookies : Option JVal) (finalKey : Option String) (url : String) (outcome : HttpOutcome)
    (body : String) (hu : ¬ url = "") (hcl : classifyDelivery outcome = .ok body) :
    deliverAndFlag db1 opsA phone data cookies finalKey url outcome =
      { resp := .ok successResp
        db := applyUpdate db1 (successUpdate phone finalKey)
        ops := opsA ++ [Op.deliver (mkDeliveryReq url data cookies),
                        Op.updateFlags (successUpdate phone finalKey)] } := by
  unfold deliverAndFlag sendToWebhookWithCookies
  simp [if_neg hu, hcl]

theorem filter_isDeliverOp_epOps (c : Prop) [Decidable c] (k : String) :
    (if c then [Op.findEndpoint k] else ([] : List Op)).filter isDeliverOp = [] := by
  split <;> rfl

theorem filter_isUpdateOp_epOps (c : Prop) [Decidable c] (k : String) :
    (if c then [Op.findEndpoint k] else ([] : List Op)).filter isUpdateOp = [] := by
  split <;> rfl

theorem mem_epOps_iff (c : Prop) [Decidable c] (k : String) (op : Op) :
    (op ∈ if c then [Op.findEndpoint k] else ([] : List Op)) ↔ (c ∧ op = Op.findEndpoint k) := by
  split <;> simp_all

theorem handleVerification_deliver_count (db : DB) (now : Nat) (nowIso phone source : String)
    (vkey : Option String) (outcome : HttpOutcome) :
    ((handleVerification db now nowIso phone source vkey outcome).ops.filter isDeliverOp).length ≤ 1 := by
  unfold handleVerification
  split
  · simp [isDeliverOp]
  · rename_i orig horig
    split
    · simp [isDeliverOp]
    · dsimp only
      rcases hover : getWebhookEndpoint
          (addAudit db (logVerificationAttempt now phone source false true none))
          (if truthyO vkey = true then vkey else orig.verificationKey) with _ | url
      · simp [List.filter_append, filter_isDeliverOp_epOps, isDeliverOp]
      · dsimp only
        refine le_trans (deliverAndFlag_deliver_count _ _ _ _ _ _ _ _) ?_
        simp [List.filter_append, filter_isDeliverOp_epOps, isDeliverOp]

theorem handleVerification_opPhones (db : DB) (now : Nat) (nowIso phone source : String)
    (vkey : Option String) (outcome : HttpOutcome) :
    ∀ op ∈ (handleVerification db now nowIso phone source vkey outcome).ops,
      ∀ q ∈ opPhones op, q = phone ∨ q = escapeString phone := by
  intro op hop q hq
  unfold handleVerification at hop
  split at hop
  · simp at hop
    rcases hop with rfl | rfl
    · simp [opPhones] at hq; simp [hq]
    · simp [opPhones, logVerificationAttempt] at hq; simp [hq]
  · rename_i orig horig
    split at hop
    · simp at hop
      rcases hop with rfl | rfl
      · simp [opPhones] at hq; simp [hq]
      · simp [opPhones, logVerificationAttempt] at hq; simp [hq]
    · dsimp only at hop
      rcases hover : getWebhookEndpoint
          (addAudit db (logVerificationAttempt now phone source false true none))
          (if truthyO vkey = true then vkey else orig.verificationKey) with _ | url <;>
        rw [hover] at hop
      · simp [mem_epOps_iff] at hop
        rcases hop with rfl | rfl | ⟨-, rfl⟩
        · simp [opPhones] at hq; simp [hq]
        · simp [opPhones, logVerificationAttempt] at hq; simp [hq]
        · simp [opPhones] at hq
      · dsimp only at hop
        rcases deliverAndFlag_opPhones _ _ _ _ _ _ _ _
            (lookupObj_mkWebhookData_phone _ _ _ _) op hop with hop | hP
        · simp [mem_epOps_iff] at hop
          rcases hop with rfl | rfl | ⟨-, rfl⟩
          · simp [opPhones] at hq; simp [hq]
          · simp [opPhones, logVerificationAttempt] at hq; simp [hq]
          · simp [opPhones] at hq
        · exact hP q hq

theorem connectLoop_attempts_le (env : Nat → Except String Nat) (r a : Nat) :
    (connectLoop env r a).attemptsTried.length ≤ r := by
  induction r generalizing a with
  | zero => simp [connectLoop]
  | succ n ih =>
      unfold connectLoop
      cases env a with
      | ok d => simp
      | error e =>
          by_cases ha : a = 5
          · simp [ha]
          · simp only [ha, if_false]
            have := ih (a + 1)
            simp
            omega

theorem initRetry_stuck (env : CMEnv) :
    ∀ fuel, initYDBDriverWithRetry env fuel ⟨none, true⟩ = none := by
  intro fuel
  induction fuel with
  | zero => rfl
  | succ n ih => exact ih

theorem finalKeyGuard_cases (k : Option String) :
    finalKeyGuard k = none ∨ finalKeyGuard k = some "" ∨
      ∃ s, finalKeyGuard k = some s ∧ isHex32 s = true := by
  match k with
  | none => exact Or.inl rfl
  | some s =>
      by_cases hs : s = ""
      · subst hs
        exact Or.inr (Or.inl rfl)
      · by_cases hx : isHex32 s = true
        · refine Or.inr (Or.inr ⟨s, ?_, hx⟩)
          simp [finalKeyGuard, truthyO, hx]
        · refine Or.inl ?_
          simp [finalKeyGuard, truthyO, hs, hx]

theorem filter_isAuditOp_epOps (c : Prop) [Decidable c] (k : String) :
    (if c then [Op.findEndpoint k] else ([] : List Op)).filter isAuditOp = [] := by
  split <;> rfl

/-- C5: for every verification event for which no submission matches the
phone, exactly one audit record is written, with foundInSubmissions=false and
verified=false, the response is the not-found success body (a normal negative
outcome with HTTP 200 and status success, not an error), and no delivery
attempt is made. -/
theorem C5_unmatched_event_audited_not_dispatched (db : DB) (now : Nat)
    (nowIso phone source : String) (vkey : Option String) (outcome : HttpOutcome)
    (h : findOriginalRawSubmission db phone = none) :
    (handleVerification db now nowIso phone source vkey outcome).resp = Except.ok notFoundResp ∧
    notFoundResp.statusCode = 200 ∧ notFoundResp.status = "success" ∧
    (handleVerification db now nowIso phone source vkey outcome).db =
      addAudit db (logVerificationAttempt now phone source false false none) ∧
    (logVerificationAttempt now phone source false false none).foundInSubmissions = false ∧
    (logVerificationAttempt now phone source false false none).verified = false ∧
    ((handleVerification db now nowIso phone source vkey outcome).ops.filter isAuditOp).length = 1 ∧
    (handleVerification db now nowIso phone source vkey outcome).ops.filter isDeliverOp = [] := by
  unfold handleVerification
  rw [h]
  simp [isAuditOp, isDeliverOp, logVerificationAttempt, notFoundResp]

/-- C5 witness: the unmatched outcome evaluated on an empty store. -/
theorem C5_unmatched_witness :
    (handleVerification dbEmptyW 1000 "t0" phoneW "telegram" none
        (HttpOutcome.response 200 "ok")).resp = Except.ok notFoundResp ∧
    notFoundResp.statusCode = 200 ∧ notFoundResp.status = "success" ∧
    (handleVerification dbEmptyW 1000 "t0" phoneW "telegram" none
        (HttpOutcome.response 200 "ok")).db =
      addAudit dbEmptyW (logVerificationAttempt 1000 phoneW "telegram" false false none) ∧
    (logVerificationAttempt 1000 phoneW "telegram" false false none).foundInSubmissions = false ∧
    (logVerificationAttempt 1000 phoneW "telegram" false false none).verified = false ∧
    ((handleVerification dbEmptyW 1000 "t0" phoneW "telegram" none
        (HttpOutcome.response 200 "ok")).ops.filter isAuditOp).length = 1 ∧
    (handleVerification dbEmptyW 1000 "t0" phoneW "telegram" none
        (HttpOutcome.response 200 "ok")).ops.filter isDeliverOp = [] :=
  C5_unmatched_event_audited_not_dispatched dbEmptyW 1000 "t0" phoneW "telegram" none
    (HttpOutcome.response 200 "ok") (by rfl)

/-- C3 counterexample: in the expired-window scenario the stored audit record
carries no status value, because the insert statement of
logVerificationAttempt has no status column; the claim expects
status="timeout" on the record. -/
theorem C3_expired_counterexample :
    ((handleVerification dbW 400000 "t0" phoneW "telegram" none
        (HttpOutcome.response 200 "ok")).db.attempts.map AuditRecord.status) = [none] ∧
    (none : Option String) ≠ some "timeout" := ⟨rfl, by decide⟩

/-- C3 (amended): for every verification event whose matched submission is
older than 5 minutes, exactly one audit record is written with
foundInSubmissions=true and verified=false (the status="timeout" argument is
passed to the logging routine but dropped by the insert, so the stored record
has no status), the response reports the expired window, and no delivery
attempt is made. -/
theorem C3_expired_event_timeout (db : DB) (now : Nat) (nowIso phone source : String)
    (vkey : Option String) (outcome : HttpOutcome) (orig : Submission)
    (h1 : findOriginalRawSubmission db phone = some orig)
    (h2 : timedOutWindow now orig.timestamp = true) :
    (handleVerification db now nowIso phone source vkey outcome).resp = Except.ok timeoutResp ∧
    timeoutResp.message = "Verification window expired" ∧
    (handleVerification db now nowIso phone source vkey outcome).db =
      addAudit db (logVerificationAttempt now phone source false true (some "timeout")) ∧
    (logVerificationAttempt now phone source false true (some "timeout")).foundInSubmissions = true ∧
    (logVerificationAttempt now phone source false true (some "timeout")).verified = false ∧
    (logVerificationAttempt now phone source false true (some "timeout")).status = none ∧
    ((handleVerification db now nowIso phone source vkey outcome).ops.filter isAuditOp).length = 1 ∧
    (handleVerification db now nowIso phone source vkey outcome).ops.filter isDeliverOp = [] := by
  unfold handleVerification
  rw [h1]
  simp [h2, isAuditOp, isDeliverOp, logVerificationAttempt, timeoutResp]

/-- C3 witness: the expired outcome evaluated on the concrete store, 400
seconds after the submission. -/
theorem C3_expired_witness :
    (handleVerification dbW 400000 "t1" phoneW "telegram" none
        (HttpOutcome.response 200 "ok")).resp = Except.ok timeoutResp ∧
    timeoutResp.message = "Verification window expired" ∧
    (handleVerification dbW 400000 "t1" phoneW "telegram" none
        (HttpOutcome.response 200 "ok")).db =
      addAudit dbW (logVerificationAttempt 400000 phoneW "telegram" false true (some "timeout")) ∧
    (logVerificationAttempt 400000 phoneW "telegram" false true (some "timeout")).foundInSubmissions = true ∧
    (logVerificationAttempt 400000 phoneW "telegram" false true (some "timeout")).verified = false ∧
    (logVerificationAttempt 400000 phoneW "telegram" false true (some "timeout")).status = none ∧
    ((handleVerification dbW 400000 "t1" phoneW "telegram" none
        (HttpOutcome.response 200 "ok")).ops.filter isAuditOp).length = 1 ∧
    (handleVerification dbW 400000 "t1" phoneW "telegram" none
        (HttpOutcome.response 200 "ok")).ops.filter isDeliverOp = [] :=
  C3_expired_event_timeout dbW 400000 "t1" phoneW "telegram" none
    (HttpOutcome.response 200 "ok") subW (by rfl) (by decide)

/-- C2 counterexample: with a matched, in-window event whose endpoint record
has enabled=false, the handler throws rather than completing normally, no
flag update is executed, and the submission keeps phoneVerified=false; the
claim expects a non-error completion with verified=true, webhookSent=false
persisted. -/
theorem C2_disabled_endpoint_counterexample :
    (handleVerification dbDisabledW 60000 "t1" phoneW "telegram" none
        (HttpOutcome.response 200 "ok")).resp = Except.error "Webhook endpoint not found" ∧
    (handleVerification dbDisabledW 60000 "t1" phoneW "telegram" none
        (HttpOutcome.response 200 "ok")).ops.filter isUpdateOp = [] ∧
    ((handleVerification dbDisabledW 60000 "t1" phoneW "telegram" none
        (HttpOutcome.response 200 "ok")).db.rawSubmissions.map Submission.phoneVerified) =
      [false] := ⟨rfl, rfl, rfl⟩

/-- C2 (amended): for every matched in-window event whose endpoint lookup
yields null (record absent, enabled=false, or no usable key), no delivery is
attempted and no flag update is executed; the audit trail holds exactly the
one record written at the matched step and the submission rows are untouched;
the handler throws Webhook endpoint not found, which the catch block renders
as an HTTP 200 error body, not as a normal completion. -/
theorem C2_endpoint_unavailable_throws (db : DB) (now : Nat) (nowIso phone source : String)
    (vkey : Option String) (outcome : HttpOutcome) (orig : Submission)
    (h1 : findOriginalRawSubmission db phone = some orig)
    (h2 : timedOutWindow now orig.timestamp = false)
    (h3 : getWebhookEndpoint db (if truthyO vkey = true then vkey else orig.verificationKey) = none) :
    (handleVerification db now nowIso phone source vkey outcome).resp =
      Except.error "Webhook endpoint not found" ∧
    (handleVerification db now nowIso phone source vkey outcome).db =
      addAudit db (logVerificationAttempt now phone source false true none) ∧
    (handleVerification db now nowIso phone source vkey outcome).ops.filter isDeliverOp = [] ∧
    (handleVerification db now nowIso phone source vkey outcome).ops.filter isUpdateOp = [] ∧
    ((handleVerification db now nowIso phone source vkey outcome).ops.filter isAuditOp).length = 1 ∧
    handlerCatch (handleVerification db now nowIso phone source vkey outcome).resp =
      { statusCode := 200, status := "error", message := "Webhook endpoint not found"
        verified := none, webhookSent := none } := by
  unfold handleVerification
  rw [h1]
  simp only [h2, Bool.false_eq_true, if_false]
  rw [getWebhookEndpoint_addAudit, h3]
  dsimp only
  refine ⟨rfl, rfl, ?_, ?_, ?_, by decide⟩ <;>
    simp [List.filter_append, filter_isDeliverOp_epOps, filter_isUpdateOp_epOps,
      filter_isAuditOp_epOps, isDeliverOp, isUpdateOp, isAuditOp]

/-- C2 witness: the disabled-endpoint outcome evaluated on the concrete
store, 60 seconds after the submission. -/
theorem C2_endpoint_unavailable_witness :
    (handleVerification dbDisabledW 60000 "t2" phoneW "telegram" none
        (HttpOutcome.response 200 "ok")).resp = Except.error "Webhook endpoint not found" ∧
    (handleVerification dbDisabledW 60000 "t2" phoneW "telegram" none
        (HttpOutcome.response 200 "ok")).db =
      addAudit dbDisabledW (logVerificationAttempt 60000 phoneW "telegram" false true none) ∧
    (handleVerification dbDisabledW 60000 "t2" phoneW "telegram" none
        (HttpOutcome.response 200 "ok")).ops.filter isDeliverOp = [] ∧
    (handleVerification dbDisabledW 60000 "t2" phoneW "telegram" none
        (HttpOutcome.response 200 "ok")).ops.filter isUpdateOp = [] ∧
    ((handleVerification dbDisabledW 60000 "t2" phoneW "telegram" none
        (HttpOutcome.response 200 "ok")).ops.filter isAuditOp).length = 1 ∧
    handlerCatch (handleVerification dbDisabledW 60000 "t2" phoneW "telegram" none
        (HttpOutcome.response 200 "ok")).resp =
      { statusCode := 200, status := "error", message := "Webhook endpoint not found"
        verified := none, webhookSent := none } :=
  C2_endpoint_unavailable_throws dbDisabledW 60000 "t2" phoneW "telegram" none
    (HttpOutcome.response 200 "ok") subW (by rfl) (by decide) (by rfl)

/-- C1 counterexample: in the matched, in-window, delivery-fails scenario the
flag update leaves phoneVerified=false on the submission row even though the
response body reports the phone as verified; the claim expects the update to
persist phoneVerified=true. -/
theorem C1_delivery_failure_counterexample :
    ((handleVerification dbW 60000 "t1" phoneW "telegram" none
        (HttpOutcome.response 500 "oops")).db.rawSubmissions.map Submission.phoneVerified) =
      [false] ∧
    (handleVerification dbW 60000 "t1" phoneW "telegram" none
        (HttpOutcome.response 500 "oops")).resp = Except.ok webhookFailResp ∧
    webhookFailResp.verified = some true := ⟨rfl, rfl, rfl⟩

/-- C1 (amended): for every matched in-window event whose delivery attempt
fails, exactly one flag update is executed; it sets webhookSent=false and
does not touch the phoneVerified column (which therefore keeps its prior
value, false for a never-verified submission), while the response body alone
reports verified=true. -/
theorem C1_delivery_failure_update (db : DB) (now : Nat) (nowIso phone source : String)
    (vkey : Option String) (outcome : HttpOutcome) (orig : Submission) (url : String)
    (err : DeliveryErr)
    (h1 : findOriginalRawSubmission db phone = some orig)
    (h2 : timedOutWindow now orig.timestamp = false)
    (h3 : getWebhookEndpoint db (if truthyO vkey = true then vkey else orig.verificationKey) = some url)
    (h4 : ¬ url = "")
    (h5 : classifyDelivery outcome = Except.error err) :
    (handleVerification db now nowIso phone source vkey outcome).resp = Except.ok webhookFailResp ∧
    webhookFailResp.verified = some true ∧ webhookFailResp.webhookSent = some false ∧
    (handleVerification db now nowIso phone source vkey outcome).ops.filter isUpdateOp =
      [Op.updateFlags (failureUpdate phone)] ∧
    (failureUpdate phone).webhookSent = false ∧
    (failureUpdate phone).phoneVerified = none ∧
    (handleVerification db now nowIso phone source vkey outcome).db.rawSubmissions =
      db.rawSubmissions.map (fun s =>
        if s.phone == escapeString phone then { s with webhookSent := false } else s) := by
  unfold handleVerification
  rw [h1]
  simp only [h2, Bool.false_eq_true, if_false]
  rw [getWebhookEndpoint_addAudit, h3]
  dsimp only
  rw [deliverAndFlag_failure _ _ _ _ _ _ _ _ err h4 h5]
  refine ⟨rfl, rfl, rfl, ?_, rfl, rfl, ?_⟩
  · simp [List.filter_append, filter_isUpdateOp_epOps, isUpdateOp]
  · simp [applyUpdate, addAudit, failureUpdate]

/-- C1 witness: the delivery-failure outcome evaluated on the concrete store,
60 seconds after the submission, with a remote 500 response. -/
theorem C1_delivery_failure_witness :
    (handleVerification dbW 60000 "t3" phoneW "telegram" none
        (HttpOutcome.response 500 "oops")).resp = Except.ok webhookFailResp ∧
    webhookFailResp.verified = some true ∧ webhookFailResp.webhookSent = some false ∧
    (handleVerification dbW 60000 "t3" phoneW "telegram" none
        (HttpOutcome.response 500 "oops")).ops.filter isUpdateOp =
      [Op.updateFlags (failureUpdate phoneW)] ∧
    (failureUpdate phoneW).webhookSent = false ∧
    (failureUpdate phoneW).phoneVerified = none ∧
    (handleVerification dbW 60000 "t3" phoneW "telegram" none
        (HttpOutcome.response 500 "oops")).db.rawSubmissions =
      dbW.rawSubmissions.map (fun s =>
        if s.phone == escapeString phoneW then { s with webhookSent := false } else s) :=
  C1_delivery_failure_update dbW 60000 "t3" phoneW "telegram" none
    (HttpOutcome.response 500 "oops") subW "https://example.com/hook"
    { message := "Webhook responded with status 500", remote := some (500, "oops") }
    (by rfl) (by decide) (by rfl) (by decide) (by rfl)

/-- C6: the delivered payload is the shallow merge of the original raw
payload with the four verification metadata fields; every original field not
named like a verification field is preserved unchanged, and on a key
collision the verification field value wins. -/
theorem C6_payload_shallow_merge (raw : Obj) (phone source iso k : String)
    (h : k ≠ "verification_phone" ∧ k ≠ "verification_source" ∧
         k ≠ "verification_timestamp" ∧ k ≠ "verified") :
    lookupObj (mkWebhookData raw phone source iso) k = lookupObj raw k ∧
    lookupObj (mkWebhookData raw phone source iso) "verification_phone" = some (JVal.str phone) ∧
    lookupObj (mkWebhookData raw phone source iso) "verification_source" = some (JVal.str source) ∧
    lookupObj (mkWebhookData raw phone source iso) "verification_timestamp" = some (JVal.str iso) ∧
    lookupObj (mkWebhookData raw phone source iso) "verified" = some (JVal.boolean true) := by
  obtain ⟨h1, h2, h3, h4⟩ := h
  have e1 : ("verification_phone" == k) = false := beq_eq_false_iff_ne.mpr (Ne.symm h1)
  have e2 : ("verification_source" == k) = false := beq_eq_false_iff_ne.mpr (Ne.symm h2)
  have e3 : ("verification_timestamp" == k) = false := beq_eq_false_iff_ne.mpr (Ne.symm h3)
  have e4 : ("verified" == k) = false := beq_eq_false_iff_ne.mpr (Ne.symm h4)
  refine ⟨?_, rfl, rfl, rfl, rfl⟩
  simp [mkWebhookData, lookupObj, List.find?, e1, e2, e3, e4]

/-- C6 witness: the merge evaluated on a concrete one-field payload at a key
distinct from the verification fields. -/
theorem C6_payload_merge_witness :
    lookupObj (mkWebhookData [("Name", JVal.str "A")] phoneW "telegram" "t4") "Name" =
      lookupObj [("Name", JVal.str "A")] "Name" ∧
    lookupObj (mkWebhookData [("Name", JVal.str "A")] phoneW "telegram" "t4") "verification_phone" =
      some (JVal.str phoneW) ∧
    lookupObj (mkWebhookData [("Name", JVal.str "A")] phoneW "telegram" "t4") "verification_source" =
      some (JVal.str "telegram") ∧
    lookupObj (mkWebhookData [("Name", JVal.str "A")] phoneW "telegram" "t4") "verification_timestamp" =
      some (JVal.str "t4") ∧
    lookupObj (mkWebhookData [("Name", JVal.str "A")] phoneW "telegram" "t4") "verified" =
      some (JVal.boolean true) :=
  C6_payload_shallow_merge [("Name", JVal.str "A")] phoneW "telegram" "t4" "Name" (by decide)

/-- C7 counterexample: a payload whose cookie field is the empty string is
counted as carrying a cookie string field by the claim, but the JS truthiness
test in the source drops it, so no Cookie header is attached. -/
theorem C7_empty_cookie_counterexample :
    (mkDeliveryReq "https://example.com/hook" [] (some (JVal.str ""))).cookieHeader = none ∧
    (none : Option JVal) ≠ some (JVal.str "") := ⟨rfl, by decide⟩

/-- C7 (amended): a delivery resolves exactly when the remote status is in
[200,300); any other status rejects with an error carrying the remote status
and body, a transport error or timeout rejects with an error carrying no
remote response; a non-empty cookie string is forwarded as the Cookie header
while an absent (or, amending the claim, empty) cookie yields no header; and
every verification event performs at most one delivery attempt. -/
theorem C7_delivery_classification :
    (∀ s b, classifyDelivery (HttpOutcome.response s b) = Except.ok b ↔ (200 ≤ s ∧ s < 300)) ∧
    (∀ s b, ¬ (200 ≤ s ∧ s < 300) →
      classifyDelivery (HttpOutcome.response s b) =
        Except.error { message := "Webhook responded with status " ++ toString s
                       remote := some (s, b) }) ∧
    (∀ m, classifyDelivery (HttpOutcome.netError m) =
      Except.error { message := m, remote := none }) ∧
    (classifyDelivery HttpOutcome.timedOut =
      Except.error { message := "Request timeout", remote := none }) ∧
    (∀ url data c, ¬ c = "" →
      (mkDeliveryReq url data (some (JVal.str c))).cookieHeader = some (JVal.str c)) ∧
    (∀ url data, (mkDeliveryReq url data none).cookieHeader = none) ∧
    (∀ db now nowIso phone source vkey outcome,
      ((handleVerification db now nowIso phone source vkey outcome).ops.filter
        isDeliverOp).length ≤ 1) := by
  refine ⟨?_, ?_, fun m => rfl, rfl, ?_, fun url data => rfl, handleVerification_deliver_count⟩
  · intro s b
    constructor
    · intro h
      rcases Decidable.em (200 ≤ s ∧ s < 300) with hr | hr
      · exact hr
      · simp [classifyDelivery, hr] at h
    · intro hr
      simp [classifyDelivery, hr]
  · intro s b hr
    simp [classifyDelivery, hr]
  · intro url data c hc
    simp [mkDeliveryReq, jvalTruthyO, jvalTruthy, hc]

/-- C7 witness: the classification and the cookie header evaluated at a
remote 500 response and at a non-empty cookie value. -/
theorem C7_delivery_classification_witness :
    classifyDelivery (HttpOutcome.response 500 "bad") =
      Except.error { message := "Webhook responded with status 500", remote := some (500, "bad") } ∧
    (mkDeliveryReq "https://example.com/hook" [] (some (JVal.str "sid=2"))).cookieHeader =
      some (JVal.str "sid=2") ∧
    classifyDelivery (HttpOutcome.response 204 "") = Except.ok "" :=
  ⟨C7_delivery_classification.2.1 500 "bad" (by decide),
   C7_delivery_classification.2.2.2.2.1 "https://example.com/hook" [] "sid=2" (by decide),
   (C7_delivery_classification.1 204 "").mpr (by decide)⟩

/-- C8: connection establishment makes at most 5 attempts, sleeps
initialDelay times 2 to the power (attempt-1) between attempt and attempt+1
for attempt 1..4, and when all 5 attempts fail it surfaces the error of the
last attempt. -/
theorem C8_bounded_backoff_connection :
    (∀ env : Nat → Except String Nat, (connectAttempts env).attemptsTried.length ≤ 5) ∧
    (∀ err : Nat → String,
      connectAttempts (fun i => Except.error (err i)) =
        { result := Except.error (err 5), delays := [1000, 2000, 4000, 8000]
          attemptsTried := [1, 2, 3, 4, 5] }) :=
  ⟨fun env => connectLoop_attempts_le env 5 1, fun err => rfl⟩

/-- C9 counterexample: an event whose multi-value query parameter list holds
the empty string makes extractVerificationKey return the empty string, which
is neither null nor a 32-character lowercase hexadecimal key. -/
theorem C9_empty_key_counterexample :
    extractVerificationKey (fun _ => none) (fun _ => none)
      { qsKey := none, mvKey := some [""], rawQuery := none, webhookUrlHeader := none } =
        some "" ∧
    isHex32 "" = false := ⟨rfl, rfl⟩

/-- C9 (amended): for every inbound event and every behaviour of the query
and URL parsers, the extracted verification key is absent, the empty string
(itself treated as absent by every downstream truthiness test), or a string
of exactly 32 lowercase hexadecimal characters; any other key is replaced by
null by the final format guard. -/
theorem C9_extracted_key_format (rq urlp : String → Option (Option String)) (e : HEvent) :
    extractVerificationKey rq urlp e = none ∨ extractVerificationKey rq urlp e = some "" ∨
      ∃ s, extractVerificationKey rq urlp e = some s ∧ isHex32 s = true := by
  unfold extractVerificationKey
  exact finalKeyGuard_cases _

/-- C10: for every inbound event, either the normalized phone satisfies the
plus-and-10-to-15-digits pattern or the handler fails with the invalid-phone
error before any store read, store write or delivery; consequently every
phone carried by a store or delivery operation satisfies the pattern. -/
theorem C10_phone_validated_before_store (db : DB) (now : Nat) (nowIso : String)
    (rawPhone : Option String) (source domain : String) (parsedData : Obj)
    (vkey : Option String) (outcome : HttpOutcome) :
    ((handlerCore db now nowIso rawPhone source domain parsedData vkey outcome).resp =
        Except.error "Invalid phone format" ∧
      (handlerCore db now nowIso rawPhone source domain parsedData vkey outcome).ops = []) ∨
    (∃ np, normalizePhone rawPhone = some np ∧ isValidPhone np = true ∧
      ∀ op ∈ (handlerCore db now nowIso rawPhone source domain parsedData vkey outcome).ops,
        ∀ q ∈ opPhones op, isValidPhone q = true) := by
  unfold handlerCore
  cases hnp : normalizePhone rawPhone with
  | none => exact Or.inl ⟨rfl, rfl⟩
  | some np =>
      by_cases hv : isValidPhone np = true
      · refine Or.inr ⟨np, rfl, hv, ?_⟩
        simp only [hv, if_true]
        by_cases hs1 : (source == "telegram" || source == "whatsapp") = true
        · simp only [hs1, if_true]
          intro op hop q hq
          rcases handleVerification_opPhones db now nowIso np source vkey outcome op hop q hq
            with rfl | rfl
          · exact hv
          · rw [escapeString_validPhone np hv]
            exact hv
        · simp only [hs1, if_false]
          by_cases hs2 : (source == "tilda") = true
          · simp only [hs2, if_true]
            intro op hop q hq
            simp [handleTildaSubmission] at hop
            subst hop
            simp [opPhones] at hq
            rw [hq, escapeString_validPhone np hv]
            exact hv
          · simp only [hs2, if_false]
            intro op hop q hq
            simp at hop
      · refine Or.inl ?_
        constructor <;> simp [hv]

/-- C4: reachability of the diverging acquire.  First conjunct: a successful
initialization from the idle state returns the driver but leaves the
driverInitializing flag set, because the success path of the source never
clears it.  Second conjunct: once the cached driver is invalidated by a
failing probe while the flag is still set, the wait-and-recheck recursion of
initYDBDriverWithRetry never returns, for every amount of fuel — acquire does
not terminate, contradicting the claim that the flag is cleared after every
initialization and that no wait is unbounded. -/
theorem C4_acquire_nontermination :
    (∀ (fuel d : Nat) (p : Nat → Option Bool),
      initYDBDriverWithRetry ⟨p, fun _ => Except.ok d⟩ (fuel + 1)
          ⟨none, false⟩ =
        some (⟨some d, true⟩, Except.ok d)) ∧
    (∀ (fuel d : Nat) (c : Nat → Except String Nat),
      initYDBDriverWithRetry ⟨fun _ => none, c⟩ fuel ⟨some d, true⟩ = none) := by
  constructor
  · intro fuel d p
    rfl
  · intro fuel d c
    cases fuel with
    | zero => rfl
    | succ n => exact initRetry_stuck ⟨fun _ => none, c⟩ n

end TildaHandler
